import Mathlib

/-!
Verification of the WebhookSpy server core (src/server.ts) against its
natural-language specification.

The embedding below translates the persistence layer, capture pipeline,
rate limiter and access-control gates of `src/server.ts` into pure Lean
functions.  The SQLite database is modelled as an explicit record of the
two tables (`endpoints`, `requests`) plus the AUTOINCREMENT counter for
`requests.id`.  Timestamps are milliseconds-since-epoch naturals; the code
stores ISO-8601 strings whose lexicographic order agrees with numeric
order, so SQL comparisons on `expires_at` become numeric comparisons.
-/

namespace WebhookSpy

/-! ### Constants (server.ts:94-104) -/

def EXPIRATION_MS : Nat := 1000 * 60 * 60 * 24 * 7

def MAX_BODY_BYTES : Nat := 512 * 1024

def MAX_REQUESTS_PER_ENDPOINT : Nat := 100

def RATE_LIMIT_WINDOW_MS : Nat := 60000

def RATE_LIMIT_MAX_ENDPOINT_CREATES : Nat := 10

def RATE_LIMIT_MAX_REQUESTS : Nat := 100

/-! ### Lossy UTF-8 decoding

Modelled from the environment: `new TextDecoder("utf-8", { fatal: false })`
(server.ts:385) decodes bytes to text, replacing invalid byte sequences
with U+FFFD instead of throwing.  The decoder below is a total function
from byte lists to code-point lists: agreeing with TextDecoder on ASCII
input and on invalid lead bytes, and never failing on any input. -/

def isUtf8Cont (b : Nat) : Bool := 128 ≤ b && b < 192

/-- The decoder's state machine: `need` is the number of continuation
bytes still expected (0 in the ground state), `cp` the partially decoded
code point.  An ASCII byte in the ground state is emitted as is, an
invalid lead or bare continuation byte becomes U+FFFD, a valid lead byte
starts a multi-byte sequence, an invalid continuation byte emits U+FFFD
and re-handles the offending byte as a fresh lead, and a truncated
sequence at end of input becomes one U+FFFD. -/
def utf8LossyDecodeAux (need cp : Nat) : List Nat → List Nat
  | [] => if need == 0 then [] else [0xFFFD]
  | b :: rest =>
    if need == 0 then
      if b < 128 then b :: utf8LossyDecodeAux 0 0 rest
      else if b < 194 then 0xFFFD :: utf8LossyDecodeAux 0 0 rest
      else if b < 224 then utf8LossyDecodeAux 1 (b - 192) rest
      else if b < 240 then utf8LossyDecodeAux 2 (b - 224) rest
      else if b < 245 then utf8LossyDecodeAux 3 (b - 240) rest
      else 0xFFFD :: utf8LossyDecodeAux 0 0 rest
    else
      if isUtf8Cont b then
        if need == 1 then (cp * 64 + (b - 128)) :: utf8LossyDecodeAux 0 0 rest
        else utf8LossyDecodeAux (need - 1) (cp * 64 + (b - 128)) rest
      else
        0xFFFD ::
          (if b < 128 then b :: utf8LossyDecodeAux 0 0 rest
           else if b < 194 then 0xFFFD :: utf8LossyDecodeAux 0 0 rest
           else if b < 224 then utf8LossyDecodeAux 1 (b - 192) rest
           else if b < 240 then utf8LossyDecodeAux 2 (b - 224) rest
           else if b < 245 then utf8LossyDecodeAux 3 (b - 240) rest
           else 0xFFFD :: utf8LossyDecodeAux 0 0 rest)

def utf8LossyDecode (l : List Nat) : List Nat := utf8LossyDecodeAux 0 0 l

/-! ### Data model (server.ts:8-27, schema at server.ts:63-92) -/

/-- A row of the `endpoints` table. -/
structure EndpointRow where
  id : String
  created_at : Nat
  expires_at : Nat
  password_hash : Option String
deriving DecidableEq

/-- A row of the `requests` table.  `headers` and `query` are stored by the
code as JSON strings of string-to-string objects; they are modelled as
association lists.  `body` is the lossily decoded text, modelled as a
code-point list. -/
structure RequestRecord where
  id : Nat
  endpoint_id : String
  method : String
  headers : List (String × String)
  body : Option (List Nat)
  truncated : Bool
  query : List (String × String)
  created_at : Nat
  path : String
  ip : Option String
deriving DecidableEq

/-- The SQLite database: both tables plus the AUTOINCREMENT counter of
`requests.id` (which starts at 1 and strictly increases). -/
structure DB where
  endpoints : List EndpointRow
  requests : List RequestRecord
  nextRequestId : Nat
deriving DecidableEq

def DB.empty : DB := { endpoints := [], requests := [], nextRequestId := 1 }

/-! ### Utility functions (server.ts:128-199) -/

/-- One character of the regex `[a-f0-9]` under the `i` flag. -/
def isHexDigitCi (c : Char) : Bool :=
  (48 ≤ c.toNat && c.toNat ≤ 57) || (97 ≤ c.toNat && c.toNat ≤ 102) ||
    (65 ≤ c.toNat && c.toNat ≤ 70)

/-- `isValidEndpointId` (server.ts:172-174): tests `/^[a-f0-9]{32}$/i`. -/
def isValidEndpointId (id : String) : Bool :=
  id.length == 32 && id.toList.all isHexDigitCi

/-- Modelled from the environment: `Bun.password.hash` (server.ts:185-187).
The salted password hash is modelled as an injective tagging of the key;
all the code needs is that `verifyAccessKey k h` succeeds exactly on the
key whose hash is stored. -/
def hashAccessKey (key : String) : String := "bun-password-hash:" ++ key

/-- Modelled from the environment: `Bun.password.verify` (server.ts:189-191). -/
def verifyAccessKey (key : String) (hash : String) : Bool :=
  hashAccessKey key == hash

/-- `isEndpointProtected` (server.ts:193-195): `password_hash !== null`. -/
def isEndpointProtected (e : EndpointRow) : Bool :=
  e.password_hash.isSome

/-! ### Persistence layer (server.ts:201-279) -/

/-- `getEndpoint` (server.ts:201-204): `SELECT * FROM endpoints WHERE id = ?
LIMIT 1`. -/
def getEndpoint (db : DB) (id : String) : Option EndpointRow :=
  db.endpoints.find? (fun e => e.id == id)

/-- `createEndpoint` (server.ts:206-230).  The generated random access key
for `secure = true` is passed in as `freshKey` (the code draws it from
`crypto.getRandomValues`); the row is inserted with `created_at = now`,
`expires_at = now + EXPIRATION_MS` and the hash of the key when secure. -/
def createEndpoint (db : DB) (id : String) (secure : Bool) (freshKey : String)
    (now : Nat) : DB × EndpointRow × Option String :=
  let passwordHash : Option String := if secure then some (hashAccessKey freshKey) else none
  let row : EndpointRow :=
    { id := id, created_at := now, expires_at := now + EXPIRATION_MS,
      password_hash := passwordHash }
  ({ db with endpoints := db.endpoints ++ [row] }, row,
    if secure then some freshKey else none)

/-- `ensureEndpoint` (server.ts:232-240): look up, create (insecure) when
absent. -/
def ensureEndpoint (db : DB) (id : String) (now : Nat) : DB × EndpointRow :=
  match getEndpoint db id with
  | some e => (db, e)
  | none => ((createEndpoint db id false "" now).1, (createEndpoint db id false "" now).2.1)

/-- `refreshEndpointExpiration` (server.ts:242-245): `UPDATE endpoints SET
expires_at = ? WHERE id = ?` with `now + EXPIRATION_MS`. -/
def refreshEndpointExpiration (db : DB) (id : String) (now : Nat) : DB :=
  { db with
    endpoints := db.endpoints.map (fun e =>
      if e.id == id then { e with expires_at := now + EXPIRATION_MS } else e) }

/-- Insertion into a descending-sorted list (helper for the embedding of
`ORDER BY id DESC`). -/
def insertDesc (x : Nat) : List Nat → List Nat
  | [] => [x]
  | y :: ys => if y ≤ x then x :: y :: ys else y :: insertDesc x ys

/-- Sort a list of ids in descending order (`ORDER BY id DESC`). -/
def sortDesc : List Nat → List Nat
  | [] => []
  | x :: xs => insertDesc x (sortDesc xs)

/-- The ids of the requests stored for one endpoint, in table order. -/
def requestIdsFor (db : DB) (eid : String) : List Nat :=
  (db.requests.filter (fun r => r.endpoint_id == eid)).map (fun r => r.id)

/-- The subquery of `pruneOldRequests` (server.ts:249-251): `SELECT id FROM
requests WHERE endpoint_id = ? ORDER BY id DESC LIMIT 100`. -/
def topRequestIds (db : DB) (eid : String) : List Nat :=
  (sortDesc (requestIdsFor db eid)).take MAX_REQUESTS_PER_ENDPOINT

/-- `pruneOldRequests` (server.ts:247-256): `DELETE FROM requests WHERE
endpoint_id = ? AND id NOT IN (<topRequestIds>)`. -/
def pruneOldRequests (db : DB) (eid : String) : DB :=
  { db with
    requests := db.requests.filter (fun r =>
      !(r.endpoint_id == eid && !((topRequestIds db eid).contains r.id))) }

/-- `cleanupExpired` (server.ts:272-279): throttled to once per 60 s; when
it runs it deletes all requests of expired endpoints and then the expired
endpoints themselves (`expires_at <= now`).  Returns the new database and
the new `lastCleanup` value. -/
def cleanupExpired (db : DB) (lastCleanup now : Nat) : DB × Nat :=
  if now - lastCleanup < 60000 then (db, lastCleanup)
  else
    ({ db with
        requests := db.requests.filter (fun r =>
          !(db.endpoints.any (fun e => e.id == r.endpoint_id && decide (e.expires_at ≤ now)))),
        endpoints := db.endpoints.filter (fun e => !(decide (e.expires_at ≤ now))) },
      now)

/-! ### Body handling of the capture pipeline (server.ts:378-386) -/

/-- `truncated` flag: set iff the raw byte length strictly exceeds
`MAX_BODY_BYTES` (server.ts:381). -/
def bodyTruncated (bodyBytes : List Nat) : Bool :=
  decide (MAX_BODY_BYTES < bodyBytes.length)

/-- `limitedBuffer` (server.ts:380-384): the raw bytes, sliced to
`MAX_BODY_BYTES` when over the cap. -/
def cappedBodyBytes (bodyBytes : List Nat) : List Nat :=
  if MAX_BODY_BYTES < bodyBytes.length then bodyBytes.take MAX_BODY_BYTES else bodyBytes

/-- `bodyText` (server.ts:386): lossily decode the capped bytes, storing
null (`none`) when the capped buffer is empty. -/
def storedBody (bodyBytes : List Nat) : Option (List Nat) :=
  if (cappedBodyBytes bodyBytes).length != 0 then
    some (utf8LossyDecode (cappedBodyBytes bodyBytes))
  else none

/-! ### Capture pipeline (server.ts:365-477) -/

/-- The relevant parts of the inbound HTTP request: method, headers (as
produced by `Object.fromEntries(req.headers)`, names lowercased by fetch),
raw body bytes, `url.pathname + url.search`, and the decoded query map. -/
structure IncomingRequest where
  method : String
  headers : List (String × String)
  bodyBytes : List Nat
  pathWithQuery : String
  query : List (String × String)
deriving DecidableEq

/-- `headers["accept"] || ""` style lookup on the header map. -/
def lookupHeader (headers : List (String × String)) (name : String) : Option String :=
  (headers.find? (fun h => h.1 == name)).map (fun h => h.2)

/-- Does the text start with the pattern? (helper for
`String.prototype.includes`). -/
def charsStartWith : List Char → List Char → Bool
  | [], _ => true
  | _ :: _, [] => false
  | p :: ps, c :: cs => p == c && charsStartWith ps cs

/-- `text.includes(pattern)`, as used for the Accept sniff
(server.ts:424). -/
def strIncludes (text pattern : String) : Bool :=
  go pattern.toList text.toList
where
  go (pat : List Char) : List Char → Bool
    | [] => pat.isEmpty
    | c :: cs => charsStartWith pat (c :: cs) || go pat cs

/-- The two possible capture responses (server.ts:422-476): an HTML
confirmation page when the Accept header contains "text/html", otherwise
the plain-text body "Captured" with status 200. -/
inductive CaptureResponse where
  | htmlConfirmation (method : String) (endpointId : String) (path : String)
  | plainCaptured
deriving DecidableEq

/-- Response selection at the end of `handleWebhookCapture`
(server.ts:422-476).  It inspects only the Accept header — the request
body is never consulted. -/
def captureResponseFor (headers : List (String × String)) (method endpointId pathname : String) :
    CaptureResponse :=
  let accept := (lookupHeader headers "accept").getD ""
  if strIncludes accept "text/html" then
    CaptureResponse.htmlConfirmation method endpointId pathname
  else CaptureResponse.plainCaptured

/-- `handleWebhookCapture` (server.ts:365-477): ensure the endpoint,
normalize the body, insert the row (new AUTOINCREMENT id), refresh the
endpoint expiration, prune beyond the retention cap, and produce the
response.  Returns the new database, the materialized row and the
response.  (The SSE broadcast of the row only touches the in-memory
subscriber registry, not the database.) -/
def handleWebhookCapture (db : DB) (endpointId clientIp : String) (req : IncomingRequest)
    (now : Nat) : DB × RequestRecord × CaptureResponse :=
  let ep := ensureEndpoint db endpointId now
  let db1 := ep.1
  let endpoint := ep.2
  let row : RequestRecord :=
    { id := db1.nextRequestId, endpoint_id := endpoint.id, method := req.method,
      headers := req.headers, body := storedBody req.bodyBytes,
      truncated := bodyTruncated req.bodyBytes, query := req.query,
      created_at := now, path := req.pathWithQuery, ip := some clientIp }
  let db2 : DB :=
    { db1 with requests := db1.requests ++ [row], nextRequestId := db1.nextRequestId + 1 }
  let db3 := refreshEndpointExpiration db2 endpoint.id now
  let db4 := pruneOldRequests db3 endpoint.id
  (db4, row, captureResponseFor req.headers req.method endpoint.id req.pathWithQuery)

/-! ### Rate limiter (server.ts:129-148) -/

structure RateRecord where
  count : Nat
  resetTime : Nat
deriving DecidableEq

structure RateCheck where
  allowed : Bool
  remaining : Int
  resetIn : Nat
deriving DecidableEq

/-- `limiter.get(ip)` on the in-memory Map. -/
def lookupLimiter (l : List (String × RateRecord)) (ip : String) : Option RateRecord :=
  (l.find? (fun p => p.1 == ip)).map (fun p => p.2)

/-- `limiter.set(ip, r)` on the in-memory Map (replace or append). -/
def setLimiter (l : List (String × RateRecord)) (ip : String) (r : RateRecord) :
    List (String × RateRecord) :=
  if l.any (fun p => p.1 == ip) then
    l.map (fun p => if p.1 == ip then (ip, r) else p)
  else l ++ [(ip, r)]

/-- `checkRateLimit` (server.ts:129-148): fixed 60-second window per key.
Returns the updated limiter map and `{allowed, remaining, resetIn}`. -/
def checkRateLimit (limiter : List (String × RateRecord)) (ip : String)
    (maxRequests : Nat) (now : Nat) : List (String × RateRecord) × RateCheck :=
  match lookupLimiter limiter ip with
  | none =>
    (setLimiter limiter ip { count := 1, resetTime := now + RATE_LIMIT_WINDOW_MS },
      { allowed := true, remaining := (maxRequests : Int) - 1, resetIn := RATE_LIMIT_WINDOW_MS })
  | some record =>
    if record.resetTime < now then
      (setLimiter limiter ip { count := 1, resetTime := now + RATE_LIMIT_WINDOW_MS },
        { allowed := true, remaining := (maxRequests : Int) - 1, resetIn := RATE_LIMIT_WINDOW_MS })
    else if maxRequests ≤ record.count then
      (limiter, { allowed := false, remaining := 0, resetIn := record.resetTime - now })
    else
      (setLimiter limiter ip { count := record.count + 1, resetTime := record.resetTime },
        { allowed := true, remaining := (maxRequests : Int) - (record.count + 1),
          resetIn := record.resetTime - now })

/-! ### API routes (server.ts:585-1298) -/

/-- Outcomes of the JSON API routes.  `unauthorizedProtected` is the 401
response `{ error: "Access key required", protected: true }`, a distinct
constructor from `notFound` (404 `{ error: "Endpoint not found" }`). -/
inductive ApiResult (α : Type) where
  | badRequest
  | notFound
  | unauthorizedProtected
  | ok (a : α)
deriving DecidableEq

/-- The access gate repeated verbatim in every protected route
(e.g. server.ts:708-714): when the endpoint is protected, take
`query.key || headers["x-access-key"]` and require a successful
`verifyAccessKey` against the stored hash. -/
def accessGatePasses (endpoint : EndpointRow) (queryKey headerKey : Option String) : Bool :=
  match endpoint.password_hash with
  | none => true
  | some h =>
    match queryKey <|> headerKey with
    | none => false
    | some k => verifyAccessKey k h

/-- Row-level insertion sort, descending by `id` (for `SELECT * ... ORDER
BY id DESC LIMIT 100`). -/
def insertRowDesc (x : RequestRecord) : List RequestRecord → List RequestRecord
  | [] => [x]
  | y :: ys => if y.id ≤ x.id then x :: y :: ys else y :: insertRowDesc x ys

def sortRowsDesc : List RequestRecord → List RequestRecord
  | [] => []
  | x :: xs => insertRowDesc x (sortRowsDesc xs)

/-- `SELECT * FROM requests WHERE endpoint_id = ? ORDER BY id DESC LIMIT
100` (server.ts:716-719). -/
def recentRequests (db : DB) (eid : String) : List RequestRecord :=
  (sortRowsDesc (db.requests.filter (fun r => r.endpoint_id == eid))).take 100

/-- The JSON payload of a successful metadata read (server.ts:720-725). -/
structure MetadataPayload where
  id : String
  createdAt : Nat
  expiresAt : Nat
  requests : List RequestRecord
deriving DecidableEq

/-- `GET /api/endpoints/:id` (server.ts:695-726): validate the id, look
up, enforce the access gate, return metadata plus the 100 most recent
requests. -/
def getEndpointMetadataRoute (db : DB) (id : String) (queryKey headerKey : Option String) :
    ApiResult MetadataPayload :=
  if !isValidEndpointId id then ApiResult.badRequest
  else
    match getEndpoint db id with
    | none => ApiResult.notFound
    | some endpoint =>
      if isEndpointProtected endpoint && !accessGatePasses endpoint queryKey headerKey then
        ApiResult.unauthorizedProtected
      else
        ApiResult.ok
          { id := endpoint.id, createdAt := endpoint.created_at,
            expiresAt := endpoint.expires_at, requests := recentRequests db id }

/-- `GET /api/endpoints/:id/protected` (server.ts:907-920): public, takes
no access key, reports whether the endpoint is protected. -/
def checkProtectedRoute (db : DB) (id : String) : ApiResult Bool :=
  if !isValidEndpointId id then ApiResult.badRequest
  else
    match getEndpoint db id with
    | none => ApiResult.notFound
    | some endpoint => ApiResult.ok (isEndpointProtected endpoint)

/-- `DELETE FROM endpoints WHERE id = ?` (server.ts:1126).  The schema
declares `FOREIGN KEY(endpoint_id) REFERENCES endpoints(id) ON DELETE
CASCADE` (server.ts:89), so deleting the endpoint row removes all of its
request rows with it. -/
def deleteEndpointCascade (db : DB) (id : String) : DB :=
  { db with
    endpoints := db.endpoints.filter (fun e => !(e.id == id)),
    requests := db.requests.filter (fun r => !(r.endpoint_id == id)) }

/-- `DELETE /api/endpoints/:id` (server.ts:1105-1130): validate, look up,
enforce the access gate, then delete the endpoint (cascading to its
requests) and report success. -/
def deleteEndpointRoute (db : DB) (id : String) (queryKey headerKey : Option String) :
    DB × ApiResult Bool :=
  if !isValidEndpointId id then (db, ApiResult.badRequest)
  else
    match getEndpoint db id with
    | none => (db, ApiResult.notFound)
    | some endpoint =>
      if isEndpointProtected endpoint && !accessGatePasses endpoint queryKey headerKey then
        (db, ApiResult.unauthorizedProtected)
      else (deleteEndpointCascade db endpoint.id, ApiResult.ok true)

/-- `DELETE /api/endpoints/:id/requests` (server.ts:1052-1079): validate,
look up, enforce the access gate, then delete all requests of the
endpoint. -/
def clearRequestsRoute (db : DB) (id : String) (queryKey headerKey : Option String) :
    DB × ApiResult Nat :=
  if !isValidEndpointId id then (db, ApiResult.badRequest)
  else
    match getEndpoint db id with
    | none => (db, ApiResult.notFound)
    | some endpoint =>
      if isEndpointProtected endpoint && !accessGatePasses endpoint queryKey headerKey then
        (db, ApiResult.unauthorizedProtected)
      else
        (({ db with
            requests := db.requests.filter (fun r => !(r.endpoint_id == endpoint.id)) }),
          ApiResult.ok
            ((db.requests.filter (fun r => r.endpoint_id == endpoint.id)).length))

/-! ### Server state and full route pipelines -/

/-- The mutable process state around the database: the cleanup throttle
timestamp (server.ts:112) and the two in-memory rate-limiter maps
(server.ts:107-108). -/
structure ServerState where
  db : DB
  lastCleanup : Nat
  requestLimiter : List (String × RateRecord)
  endpointCreateLimiter : List (String × RateRecord)
deriving DecidableEq

/-- Result of the inspector page route. -/
inductive InspectResult where
  | badRequest
  | page
deriving DecidableEq

/-- `GET /inspect/:id` (server.ts:1169-1190) preceded by the `onRequest`
hook (server.ts:627-629) that runs `cleanupExpired`.  The handler
validates the id and calls `ensureEndpoint` — and only `ensureEndpoint` —
before serving the static inspector page. -/
def inspectRoute (st : ServerState) (id : String) (now : Nat) : ServerState × InspectResult :=
  let c := cleanupExpired st.db st.lastCleanup now
  if !isValidEndpointId id then
    ({ st with db := c.1, lastCleanup := c.2 }, InspectResult.badRequest)
  else
    ({ st with db := (ensureEndpoint c.1 id now).1, lastCleanup := c.2 }, InspectResult.page)

/-- Result of the capture route. -/
inductive CaptureRouteResult where
  | notFoundFallthrough
  | rateLimited (resetIn : Nat)
  | captured (resp : CaptureResponse)
deriving DecidableEq

/-- `.all "/:id"` (server.ts:1231-1269) preceded by the `onRequest`
cleanup hook: validate the id (non-hex ids fall through to static
content), check the per-IP capture rate limit (100/minute), then run
`handleWebhookCapture`. -/
def captureRoute (st : ServerState) (id ip : String) (req : IncomingRequest) (now : Nat) :
    ServerState × CaptureRouteResult :=
  let c := cleanupExpired st.db st.lastCleanup now
  if !isValidEndpointId id then
    ({ st with db := c.1, lastCleanup := c.2 }, CaptureRouteResult.notFoundFallthrough)
  else
    let rc := checkRateLimit st.requestLimiter ip RATE_LIMIT_MAX_REQUESTS now
    if !rc.2.allowed then
      ({ st with db := c.1, lastCleanup := c.2, requestLimiter := rc.1 },
        CaptureRouteResult.rateLimited rc.2.resetIn)
    else
      let h := handleWebhookCapture c.1 id ip req now
      ({ st with db := h.1, lastCleanup := c.2, requestLimiter := rc.1 },
        CaptureRouteResult.captured h.2.2)

/-! ### Iterated scenarios used by the claims -/

/-- The database holding one freshly created (unprotected) endpoint and no
requests: the starting point of the retention scenario. -/
def dbInit (eid : String) (now : Nat) : DB :=
  (createEndpoint DB.empty eid false "" now).1

/-- `n` consecutive captures of the same request against the same
endpoint. -/
def captureIter (db : DB) (eid ip : String) (req : IncomingRequest) (now : Nat) : Nat → DB
  | 0 => db
  | n + 1 => (handleWebhookCapture (captureIter db eid ip req now n) eid ip req now).1

/-- The row materialized by each capture of the retention scenario, as a
function of its AUTOINCREMENT id. -/
def capturedRow (eid ip : String) (req : IncomingRequest) (now : Nat) (i : Nat) :
    RequestRecord :=
  { id := i, endpoint_id := eid, method := req.method, headers := req.headers,
    body := storedBody req.bodyBytes, truncated := bodyTruncated req.bodyBytes,
    query := req.query, created_at := now, path := req.pathWithQuery, ip := some ip }

/-- The endpoint row that `createEndpoint` inserts at time `now` for an
unprotected endpoint. -/
def epRow (eid : String) (now : Nat) : EndpointRow :=
  { id := eid, created_at := now, expires_at := now + EXPIRATION_MS, password_hash := none }

/-- Closed form of the database after `k` captures of the retention
scenario: the single (unprotected) endpoint row and the `min k 100` most
recent request rows, whose ids are the consecutive range ending at `k`. -/
def retentionState (eid ip : String) (req : IncomingRequest) (now : Nat) (k : Nat) : DB :=
  { endpoints := [epRow eid now],
    requests := (List.range' (1 + k - min k 100) (min k 100)).map (capturedRow eid ip req now),
    nextRequestId := 1 + k }

/-- `n` consecutive `checkRateLimit` calls for the same key at the same
instant, collecting each call's `allowed` flag. -/
def rateCalls (limiter : List (String × RateRecord)) (ip : String) (maxRequests now : Nat) :
    Nat → List (String × RateRecord) × List Bool
  | 0 => (limiter, [])
  | n + 1 =>
    let p := rateCalls limiter ip maxRequests now n
    let c := checkRateLimit p.1 ip maxRequests now
    (c.1, p.2 ++ [c.2.allowed])

/-- ASCII string to UTF-8 bytes (for concrete request bodies). -/
def strBytes (s : String) : List Nat := s.toList.map Char.toNat

/-- The Azure Event Grid subscription-validation payload used by the
repository's own test suite (server.test.ts:455-460). -/
def eventGridBody : String :=
  "[\x7b\"eventType\":\"Microsoft.EventGrid.SubscriptionValidationEvent\",\"data\":\x7b\"validationCode\":\"test-code-123\"\x7d\x7d]"

/-- A POST of the Event Grid handshake payload with a JSON Accept header. -/
def eventGridRequest : IncomingRequest :=
  { method := "POST", headers := [("accept", "application/json"), ("content-type", "application/json")],
    bodyBytes := strBytes eventGridBody, pathWithQuery := "/0123456789abcdef0123456789abcdef",
    query := [] }

/-! ## Helper lemmas -/

theorem mem_insertDesc {y x : Nat} : ∀ {l : List Nat}, y ∈ insertDesc x l ↔ y = x ∨ y ∈ l
  | [] => by simp [insertDesc]
  | z :: zs => by
    simp only [insertDesc]
    by_cases h : z ≤ x
    · simp [h, List.mem_cons]
    · simp only [if_neg h, List.mem_cons, mem_insertDesc (l := zs)]
      tauto

theorem mem_sortDesc {y : Nat} : ∀ {l : List Nat}, y ∈ sortDesc l ↔ y ∈ l
  | [] => Iff.rfl
  | z :: zs => by
    simp only [sortDesc, mem_insertDesc, List.mem_cons, mem_sortDesc (l := zs)]

theorem pairwise_ge_insertDesc {x : Nat} :
    ∀ {l : List Nat}, l.Pairwise (fun a b => b ≤ a) →
      (insertDesc x l).Pairwise (fun a b => b ≤ a)
  | [], _ => by simp [insertDesc]
  | z :: zs, h => by
    simp only [insertDesc]
    rcases List.pairwise_cons.mp h with ⟨hz, hzs⟩
    by_cases hle : z ≤ x
    · rw [if_pos hle]
      refine List.pairwise_cons.mpr ⟨?_, h⟩
      intro y hy
      rcases List.mem_cons.mp hy with rfl | hy
      · exact hle
      · exact le_trans (hz y hy) hle
    · simp only [if_neg hle]
      refine List.pairwise_cons.mpr ⟨?_, pairwise_ge_insertDesc hzs⟩
      intro y hy
      rcases mem_insertDesc.mp hy with rfl | hy
      · exact le_of_not_le hle
      · exact hz y hy

theorem pairwise_ge_sortDesc : ∀ (l : List Nat), (sortDesc l).Pairwise (fun a b => b ≤ a)
  | [] => List.Pairwise.nil
  | z :: zs => pairwise_ge_insertDesc (pairwise_ge_sortDesc zs)

theorem insertDesc_of_lt_all {x : Nat} :
    ∀ {l : List Nat}, (∀ y ∈ l, x < y) → insertDesc x l = l ++ [x]
  | [], _ => rfl
  | z :: zs, h => by
    have hz : x < z := h z (List.mem_cons_self z zs)
    simp only [insertDesc, if_neg (Nat.not_le.mpr hz), List.cons_append,
      insertDesc_of_lt_all (fun y hy => h y (List.mem_cons_of_mem z hy))]

theorem sortDesc_range' : ∀ (n a : Nat), sortDesc (List.range' a n) = (List.range' a n).reverse
  | 0, _ => rfl
  | n + 1, a => by
    rw [List.range'_succ]
    simp only [sortDesc, sortDesc_range' n (a + 1)]
    rw [insertDesc_of_lt_all, List.reverse_cons]
    intro y hy
    rw [List.mem_reverse, List.mem_range'_1] at hy
    omega

theorem take_reverse_range' :
    ∀ (k n a : Nat), k ≤ n →
      ((List.range' a n).reverse).take k = (List.range' (a + (n - k)) k).reverse
  | 0, n, a, _ => by simp
  | k + 1, 0, a, h => by omega
  | k + 1, n + 1, a, h => by
    have hconcat : List.range' a (n + 1) = List.range' a n ++ [a + n] := by
      simpa using @List.range'_concat 1 a n
    rw [hconcat, List.reverse_append, List.reverse_singleton, List.singleton_append,
      List.take_succ_cons, take_reverse_range' k n a (by omega)]
    have h2 : List.range' (a + (n + 1 - (k + 1))) (k + 1)
        = List.range' (a + (n - k)) k ++ [a + (n - k) + k] := by
      simpa using @List.range'_concat 1 (a + (n - k)) k
    rw [h2, List.reverse_append, List.reverse_singleton, List.singleton_append]
    congr 1
    omega

theorem sortDesc_eq_cons_of_max {x : Nat} {l : List Nat} (hx : x ∈ l)
    (hmax : ∀ y ∈ l, y ≤ x) : ∃ t, sortDesc l = x :: t := by
  have hmem : x ∈ sortDesc l := mem_sortDesc.mpr hx
  cases hsd : sortDesc l with
  | nil => rw [hsd] at hmem; cases hmem
  | cons h t =>
    rw [hsd] at hmem
    have hpw := pairwise_ge_sortDesc l
    rw [hsd, List.pairwise_cons] at hpw
    have hhl : h ∈ l := mem_sortDesc.mp (hsd ▸ List.mem_cons_self h t)
    have hhx : h ≤ x := hmax h hhl
    rcases List.mem_cons.mp hmem with rfl | hmemt
    · exact ⟨t, rfl⟩
    · have : x ≤ h := hpw.1 x hmemt
      have : x = h := Nat.le_antisymm this hhx
      exact ⟨t, by rw [this]⟩

theorem getEndpoint_id_eq {db : DB} {id : String} {e : EndpointRow}
    (h : getEndpoint db id = some e) : e.id = id := by
  have := List.find?_some h
  simpa [beq_iff_eq] using this

theorem getEndpoint_deleteEndpointCascade (db : DB) (id : String) :
    getEndpoint (deleteEndpointCascade db id) id = none := by
  apply List.find?_eq_none.mpr
  intro e he
  rcases List.mem_filter.mp he with ⟨_, hcond⟩
  simpa using hcond

theorem getEndpoint_create_self (db : DB) (id : String) (secure : Bool) (fk : String)
    (now : Nat) (h : getEndpoint db id = none) :
    getEndpoint (createEndpoint db id secure fk now).1 id
      = some (createEndpoint db id secure fk now).2.1 := by
  simp only [createEndpoint, getEndpoint, List.find?_append]
  rw [getEndpoint] at h
  rw [h]
  simp

theorem getEndpoint_refresh (db : DB) (id : String) (now : Nat) :
    getEndpoint (refreshEndpointExpiration db id now) id
      = (getEndpoint db id).map (fun e => { e with expires_at := now + EXPIRATION_MS }) := by
  simp only [getEndpoint, refreshEndpointExpiration]
  induction db.endpoints with
  | nil => rfl
  | cons e l ih =>
    simp only [List.map_cons, List.find?_cons]
    by_cases he : (e.id == id) = true
    · simp [he]
    · have hf : (e.id == id) = false := by simpa using he
      rw [if_neg (by simp [hf])]
      simp only [List.find?_cons, hf]
      exact ih

theorem getEndpoint_prune (db : DB) (eid id : String) :
    getEndpoint (pruneOldRequests db eid) id = getEndpoint db id := rfl

theorem contains_true_of_mem {a : Nat} {l : List Nat} (h : a ∈ l) : l.contains a = true :=
  List.elem_iff.mpr h

theorem contains_false_of_not_mem {a : Nat} {l : List Nat} (h : a ∉ l) : l.contains a = false := by
  cases hb : l.contains a with
  | false => rfl
  | true => exact absurd (List.elem_iff.mp hb) h

theorem handleWebhookCapture_found (db : DB) (e : EndpointRow) (eid ip : String)
    (req : IncomingRequest) (now : Nat) (h : getEndpoint db eid = some e) :
    handleWebhookCapture db eid ip req now =
      (pruneOldRequests
        (refreshEndpointExpiration
          { db with
            requests := db.requests ++
              [{ id := db.nextRequestId, endpoint_id := e.id, method := req.method,
                 headers := req.headers, body := storedBody req.bodyBytes,
                 truncated := bodyTruncated req.bodyBytes, query := req.query,
                 created_at := now, path := req.pathWithQuery, ip := some ip }],
            nextRequestId := db.nextRequestId + 1 } e.id now) e.id,
       { id := db.nextRequestId, endpoint_id := e.id, method := req.method,
         headers := req.headers, body := storedBody req.bodyBytes,
         truncated := bodyTruncated req.bodyBytes, query := req.query,
         created_at := now, path := req.pathWithQuery, ip := some ip },
       captureResponseFor req.headers req.method e.id req.pathWithQuery) := by
  simp only [handleWebhookCapture, ensureEndpoint, h]

theorem requestIdsFor_map_capturedRow (l : List Nat) (es : List EndpointRow) (nid : Nat)
    (eid ip : String) (req : IncomingRequest) (now : Nat) :
    requestIdsFor (DB.mk es (l.map (capturedRow eid ip req now)) nid) eid = l := by
  simp only [requestIdsFor, List.filter_map]
  have h1 : ((fun r => r.endpoint_id == eid) ∘ capturedRow eid ip req now) = fun _ => true := by
    funext i
    simp [capturedRow]
  rw [h1, List.filter_true, List.map_map]
  have h2 : ((fun r => r.id) ∘ capturedRow eid ip req now) = fun i => i := by
    funext i
    simp [capturedRow]
  rw [h2, List.map_id']

theorem prunePred_capturedRow (tops : List Nat) (eid ip : String) (req : IncomingRequest)
    (now : Nat) :
    ((fun r => !(r.endpoint_id == eid && !(tops.contains r.id))) ∘ capturedRow eid ip req now)
      = fun i => tops.contains i := by
  funext i
  simp [capturedRow]

theorem prune_capturedRange (es : List EndpointRow) (n : Nat) (eid ip : String)
    (req : IncomingRequest) (now : Nat) (a m : Nat) :
    pruneOldRequests (DB.mk es ((List.range' a (m + 1)).map (capturedRow eid ip req now)) n) eid
      = DB.mk es
          ((List.range' (a + (m + 1) - min (m + 1) 100) (min (m + 1) 100)).map
            (capturedRow eid ip req now)) n := by
  by_cases h : m + 1 ≤ 100
  · have htops : topRequestIds
        (DB.mk es ((List.range' a (m + 1)).map (capturedRow eid ip req now)) n) eid
        = (List.range' a (m + 1)).reverse := by
      rw [topRequestIds, requestIdsFor_map_capturedRow, sortDesc_range']
      rw [show MAX_REQUESTS_PER_ENDPOINT = 100 from rfl]
      exact List.take_of_length_le (by simpa using h)
    rw [show a + (m + 1) - min (m + 1) 100 = a from by omega,
      show min (m + 1) 100 = m + 1 from by omega]
    rw [pruneOldRequests]
    simp only [DB.mk.injEq, true_and, and_true]
    rw [htops, List.filter_map, prunePred_capturedRow]
    congr 1
    apply List.filter_eq_self.mpr
    intro i hi
    exact contains_true_of_mem (List.mem_reverse.mpr hi)
  · have h100 : 100 ≤ m + 1 := by omega
    have htops : topRequestIds
        (DB.mk es ((List.range' a (m + 1)).map (capturedRow eid ip req now)) n) eid
        = (List.range' (a + ((m + 1) - 100)) 100).reverse := by
      rw [topRequestIds, requestIdsFor_map_capturedRow, sortDesc_range']
      rw [show MAX_REQUESTS_PER_ENDPOINT = 100 from rfl]
      exact take_reverse_range' 100 (m + 1) a h100
    rw [show a + (m + 1) - min (m + 1) 100 = a + ((m + 1) - 100) from by omega,
      show min (m + 1) 100 = 100 from by omega]
    rw [pruneOldRequests]
    simp only [DB.mk.injEq, true_and, and_true]
    rw [htops, List.filter_map, prunePred_capturedRow]
    have hsplit : List.range' a (m + 1) = List.range' a ((m + 1) - 100) ++
        List.range' (a + ((m + 1) - 100)) 100 := by
      have hap := List.range'_append a ((m + 1) - 100) 100 1
      simp only [one_mul] at hap
      rw [show 100 + ((m + 1) - 100) = m + 1 from by omega] at hap
      exact hap.symm
    rw [hsplit, List.filter_append]
    have h1 : List.filter (fun i => (List.range' (a + ((m + 1) - 100)) 100).reverse.contains i)
        (List.range' a ((m + 1) - 100)) = [] := by
      apply List.filter_eq_nil_iff.mpr
      intro i hi
      rw [List.mem_range'_1] at hi
      have hnot : i ∉ (List.range' (a + ((m + 1) - 100)) 100).reverse := by
        rw [List.mem_reverse, List.mem_range'_1]
        omega
      rw [contains_false_of_not_mem hnot]
      exact Bool.false_ne_true
    have h2 : List.filter (fun i => (List.range' (a + ((m + 1) - 100)) 100).reverse.contains i)
        (List.range' (a + ((m + 1) - 100)) 100)
        = List.range' (a + ((m + 1) - 100)) 100 := by
      apply List.filter_eq_self.mpr
      intro i hi
      exact contains_true_of_mem (List.mem_reverse.mpr hi)
    rw [h1, h2, List.nil_append]

theorem captureIter_closed (eid ip : String) (req : IncomingRequest) (now : Nat) (k : Nat) :
    captureIter (dbInit eid now) eid ip req now k = retentionState eid ip req now k := by
  induction k with
  | zero => simp [captureIter, dbInit, createEndpoint, DB.empty, retentionState, epRow]
  | succ k ih =>
    rw [captureIter, ih]
    have ham : (1 + k - min k 100) + min k 100 = 1 + k := by omega
    have hget : getEndpoint (retentionState eid ip req now k) eid = some (epRow eid now) := by
      simp [getEndpoint, retentionState, epRow, List.find?_cons]
    rw [handleWebhookCapture_found _ _ eid ip req now hget]
    dsimp only
    have hrow : ({ id := (retentionState eid ip req now k).nextRequestId,
                   endpoint_id := (epRow eid now).id, method := req.method,
                   headers := req.headers, body := storedBody req.bodyBytes,
                   truncated := bodyTruncated req.bodyBytes, query := req.query,
                   created_at := now, path := req.pathWithQuery,
                   ip := some ip } : RequestRecord) = capturedRow eid ip req now (1 + k) := rfl
    rw [hrow]
    have hid : (epRow eid now).id = eid := rfl
    rw [hid]
    dsimp only [retentionState]
    have hcat : (List.range' (1 + k - min k 100) (min k 100)).map (capturedRow eid ip req now)
        ++ [capturedRow eid ip req now (1 + k)]
        = (List.range' (1 + k - min k 100) (min k 100 + 1)).map (capturedRow eid ip req now) := by
      rw [@List.range'_concat 1 (1 + k - min k 100) (min k 100), List.map_append]
      simp only [one_mul, ham, List.map_cons, List.map_nil]
    rw [hcat]
    have href : refreshEndpointExpiration
        (DB.mk [epRow eid now]
          ((List.range' (1 + k - min k 100) (min k 100 + 1)).map (capturedRow eid ip req now))
          (1 + k + 1)) eid now
        = DB.mk [epRow eid now]
          ((List.range' (1 + k - min k 100) (min k 100 + 1)).map (capturedRow eid ip req now))
          (1 + k + 1) := by
      simp [refreshEndpointExpiration, epRow]
    rw [href, prune_capturedRange]
    simp only [retentionState, DB.mk.injEq]
    refine ⟨trivial, ?_, by omega⟩
    rw [show (1 + k - min k 100) + (min k 100 + 1) - min (min k 100 + 1) 100
        = 1 + (k + 1) - min (k + 1) 100 from by omega,
      show min (min k 100 + 1) 100 = min (k + 1) 100 from by omega]




theorem ensureEndpoint_found {db : DB} {id : String} {e : EndpointRow} (now : Nat)
    (h : getEndpoint db id = some e) : ensureEndpoint db id now = (db, e) := by
  simp [ensureEndpoint, h]

theorem getEndpoint_ensureEndpoint (db : DB) (id : String) (now : Nat) :
    getEndpoint (ensureEndpoint db id now).1 id = some (ensureEndpoint db id now).2 := by
  cases h : getEndpoint db id with
  | some e => rw [ensureEndpoint_found now h]; exact h
  | none =>
    have hc := getEndpoint_create_self db id false "" now h
    simp only [ensureEndpoint, h]
    exact hc

theorem utf8LossyDecodeAux_ascii : ∀ {l : List Nat}, (∀ b ∈ l, b < 128) →
    utf8LossyDecodeAux 0 0 l = l
  | [], _ => rfl
  | b :: rest, h => by
    have hb : b < 128 := h b (List.mem_cons_self b rest)
    simp only [utf8LossyDecodeAux]
    simp [hb, utf8LossyDecodeAux_ascii (fun y hy => h y (List.mem_cons_of_mem b hy))]

theorem utf8LossyDecode_ascii {l : List Nat} (h : ∀ b ∈ l, b < 128) :
    utf8LossyDecode l = l := utf8LossyDecodeAux_ascii h

/-- C9: for all valid 32-hex ids, `ensureEndpoint` is idempotent: the
second call on the same id returns a row with the same `created_at` (in
fact the same row), and creates no new row (the database is unchanged by
the second call). -/
theorem c9_ensure_idempotent (db : DB) (id : String) (now1 now2 : Nat)
    (hvalid : isValidEndpointId id = true) :
    (ensureEndpoint (ensureEndpoint db id now1).1 id now2).2.created_at
        = (ensureEndpoint db id now1).2.created_at
    ∧ (ensureEndpoint (ensureEndpoint db id now1).1 id now2).1 = (ensureEndpoint db id now1).1
    ∧ (ensureEndpoint (ensureEndpoint db id now1).1 id now2).2 = (ensureEndpoint db id now1).2 := by
  have key := ensureEndpoint_found now2 (getEndpoint_ensureEndpoint db id now1)
  rw [key]
  exact ⟨rfl, rfl, rfl⟩

/-- Witness for C9 at a concrete id and database. -/
theorem c9_ensure_idempotent_witness :
    isValidEndpointId "0123456789abcdef0123456789abcdef" = true
    ∧ (ensureEndpoint (ensureEndpoint DB.empty "0123456789abcdef0123456789abcdef" 5).1
          "0123456789abcdef0123456789abcdef" 9).2.created_at
        = (ensureEndpoint DB.empty "0123456789abcdef0123456789abcdef" 5).2.created_at :=
  ⟨by decide, (c9_ensure_idempotent DB.empty "0123456789abcdef0123456789abcdef" 5 9 (by decide)).1⟩

/-- C10: a body of exactly 524288 bytes (= the 512 KiB cap) is kept in
full with `truncated = false`; the flag is set exactly when the raw byte
length strictly exceeds 524288. -/
theorem c10_cap_boundary (bytes : List Nat) :
    (bytes.length = 524288 →
      bodyTruncated bytes = false
      ∧ cappedBodyBytes bytes = bytes
      ∧ storedBody bytes = some (utf8LossyDecode bytes))
    ∧ (bodyTruncated bytes = true ↔ 524288 < bytes.length) := by
  constructor
  · intro h
    have hle : ¬ (MAX_BODY_BYTES < bytes.length) := by
      rw [h]
      decide
    refine ⟨by simp [bodyTruncated, hle], by simp [cappedBodyBytes, hle], ?_⟩
    rw [storedBody, cappedBodyBytes, if_neg hle, if_pos]
    rw [h]
    decide
  · rw [bodyTruncated]
    rw [show MAX_BODY_BYTES = 524288 from rfl]
    exact decide_eq_true_iff

/-- Witness for C10 at a concrete boundary-length body. -/
theorem c10_cap_boundary_witness :
    (List.replicate 524288 120).length = 524288
    ∧ bodyTruncated (List.replicate 524288 120) = false
    ∧ cappedBodyBytes (List.replicate 524288 120) = List.replicate 524288 120
    ∧ storedBody (List.replicate 524288 120)
        = some (utf8LossyDecode (List.replicate 524288 120)) := by
  have h : (List.replicate 524288 120 : List Nat).length = 524288 :=
    List.length_replicate 524288 120
  exact ⟨h, (c10_cap_boundary _).1 h⟩



/-- C6: bodies are read as raw bytes and capped at 512 KiB before
decoding: a 600 KiB (= 614400-byte) body is truncated to exactly 524288
bytes with `truncated = true`, a 100-byte body is stored untruncated with
`truncated = false`, a zero-length body is stored as null, ASCII bytes
decode to themselves, and invalid byte sequences are lossily replaced by
U+FFFD instead of failing. -/
theorem c6_body_capping (bytes : List Nat) :
    (bytes.length = 614400 →
      bodyTruncated bytes = true
      ∧ cappedBodyBytes bytes = bytes.take 524288
      ∧ (cappedBodyBytes bytes).length = 524288
      ∧ storedBody bytes = some (utf8LossyDecode (bytes.take 524288)))
    ∧ (bytes.length = 100 →
      bodyTruncated bytes = false
      ∧ cappedBodyBytes bytes = bytes
      ∧ storedBody bytes = some (utf8LossyDecode bytes))
    ∧ (bytes.length = 0 → storedBody bytes = none)
    ∧ ((∀ b ∈ bytes, b < 128) → utf8LossyDecode bytes = bytes)
    ∧ utf8LossyDecode [255, 65] = [0xFFFD, 65] := by
  refine ⟨?_, ?_, ?_, utf8LossyDecode_ascii, by decide⟩
  · intro h
    have hlt : MAX_BODY_BYTES < bytes.length := by
      rw [h]
      decide
    have hcap : cappedBodyBytes bytes = bytes.take 524288 := by
      rw [cappedBodyBytes, if_pos hlt, show MAX_BODY_BYTES = 524288 from rfl]
    have hlen : (cappedBodyBytes bytes).length = 524288 := by
      rw [hcap, List.length_take, h]
      omega
    refine ⟨by simp [bodyTruncated, hlt], hcap, hlen, ?_⟩
    rw [storedBody, if_pos, hcap]
    rw [hlen]
    decide
  · intro h
    have hle : ¬ (MAX_BODY_BYTES < bytes.length) := by
      rw [h]
      decide
    have hcap : cappedBodyBytes bytes = bytes := by
      rw [cappedBodyBytes, if_neg hle]
    refine ⟨by simp [bodyTruncated, hle], hcap, ?_⟩
    rw [storedBody, if_pos, hcap]
    rw [hcap, h]
    decide
  · intro h
    have hnil : bytes = [] := List.length_eq_zero.mp h
    rw [hnil]
    decide

/-- Witness for C6 at concrete bodies of each shape. -/
theorem c6_body_capping_witness :
    bodyTruncated (List.replicate 614400 120) = true
    ∧ (cappedBodyBytes (List.replicate 614400 120)).length = 524288
    ∧ bodyTruncated (List.replicate 100 120) = false
    ∧ storedBody ([] : List Nat) = none
    ∧ utf8LossyDecode (strBytes "hello") = strBytes "hello"
    ∧ utf8LossyDecode [255, 65] = [0xFFFD, 65] :=
  ⟨((c6_body_capping _).1 (List.length_replicate 614400 120)).1,
   ((c6_body_capping _).1 (List.length_replicate 614400 120)).2.2.1,
   ((c6_body_capping _).2.1 (List.length_replicate 100 120)).1,
   (c6_body_capping []).2.2.1 rfl,
   (c6_body_capping (strBytes "hello")).2.2.2.1 (by decide),
   (c6_body_capping []).2.2.2.2⟩

theorem rateCalls_closed (ip : String) (maxRequests now : Nat) :
    ∀ n, 1 ≤ n → n ≤ maxRequests →
      (rateCalls [] ip maxRequests now n).1
          = [(ip, RateRecord.mk n (now + RATE_LIMIT_WINDOW_MS))]
      ∧ (rateCalls [] ip maxRequests now n).2 = List.replicate n true
  | 0, h1, _ => by omega
  | 1, _, _ => by
    simp [rateCalls, checkRateLimit, lookupLimiter, setLimiter]
  | n + 2, _, h2 => by
    have ih := rateCalls_closed ip maxRequests now (n + 1) (by omega) (by omega)
    have hlk : lookupLimiter [(ip, RateRecord.mk (n + 1) (now + RATE_LIMIT_WINDOW_MS))] ip
        = some (RateRecord.mk (n + 1) (now + RATE_LIMIT_WINDOW_MS)) := by
      simp [lookupLimiter]
    have hcheck : checkRateLimit [(ip, RateRecord.mk (n + 1) (now + RATE_LIMIT_WINDOW_MS))] ip
        maxRequests now
        = ([(ip, RateRecord.mk (n + 2) (now + RATE_LIMIT_WINDOW_MS))],
           RateCheck.mk true ((maxRequests : Int) - (n + 1 + 1))
             (now + RATE_LIMIT_WINDOW_MS - now)) := by
      simp only [checkRateLimit, hlk]
      rw [if_neg (show ¬ ((RateRecord.mk (n + 1) (now + RATE_LIMIT_WINDOW_MS)).resetTime < now)
            by show ¬ (now + RATE_LIMIT_WINDOW_MS < now); omega),
        if_neg (show ¬ (maxRequests ≤ (RateRecord.mk (n + 1) (now + RATE_LIMIT_WINDOW_MS)).count)
            by show ¬ (maxRequests ≤ n + 1); omega)]
      simp [setLimiter]
    rw [rateCalls, ih.1, ih.2, hcheck]
    constructor
    · rfl
    · show List.replicate (n + 1) true ++ [true] = List.replicate (n + 2) true
      rw [← List.replicate_succ']



/-- C7: `checkRateLimit` implements a fixed 60-second window per key:
(1) the first call in a window sets the counter to 1 with an absolute
reset deadline; (2) once the deadline has passed the next call resets the
counter to 1 as a new window; (3) at the cap the call is refused with
`allowed = false` and `remaining = 0`; (4) below the cap the counter is
incremented.  In particular 10 endpoint-creation calls (cap 10) from one
IP within a window all succeed, the 11th fails with `allowed = false`,
and a call after the window deadline succeeds again. -/
theorem c7_fixed_window (limiter : List (String × RateRecord)) (ip : String)
    (maxRequests now : Nat) :
    (lookupLimiter limiter ip = none →
      checkRateLimit limiter ip maxRequests now
        = (setLimiter limiter ip (RateRecord.mk 1 (now + RATE_LIMIT_WINDOW_MS)),
            RateCheck.mk true ((maxRequests : Int) - 1) RATE_LIMIT_WINDOW_MS))
    ∧ (∀ r, lookupLimiter limiter ip = some r → r.resetTime < now →
      checkRateLimit limiter ip maxRequests now
        = (setLimiter limiter ip (RateRecord.mk 1 (now + RATE_LIMIT_WINDOW_MS)),
            RateCheck.mk true ((maxRequests : Int) - 1) RATE_LIMIT_WINDOW_MS))
    ∧ (∀ r, lookupLimiter limiter ip = some r → now ≤ r.resetTime → maxRequests ≤ r.count →
      checkRateLimit limiter ip maxRequests now
        = (limiter, RateCheck.mk false 0 (r.resetTime - now)))
    ∧ (∀ r, lookupLimiter limiter ip = some r → now ≤ r.resetTime → r.count < maxRequests →
      checkRateLimit limiter ip maxRequests now
        = (setLimiter limiter ip (RateRecord.mk (r.count + 1) r.resetTime),
            RateCheck.mk true ((maxRequests : Int) - (r.count + 1)) (r.resetTime - now)))
    ∧ (rateCalls [] ip RATE_LIMIT_MAX_ENDPOINT_CREATES now 10).2 = List.replicate 10 true
    ∧ (checkRateLimit (rateCalls [] ip RATE_LIMIT_MAX_ENDPOINT_CREATES now 10).1 ip
          RATE_LIMIT_MAX_ENDPOINT_CREATES now).2.allowed = false
    ∧ (∀ now2, now + RATE_LIMIT_WINDOW_MS < now2 →
      (checkRateLimit (rateCalls [] ip RATE_LIMIT_MAX_ENDPOINT_CREATES now 10).1 ip
          RATE_LIMIT_MAX_ENDPOINT_CREATES now2).2.allowed = true) := by
  refine ⟨?_, ?_, ?_, ?_, ?_, ?_, ?_⟩
  · intro h
    simp only [checkRateLimit, h]
  · intro r h hlt
    simp only [checkRateLimit, h]
    rw [if_pos hlt]
  · intro r h hle hcap
    simp only [checkRateLimit, h]
    rw [if_neg (Nat.not_lt.mpr hle), if_pos hcap]
  · intro r h hle hcnt
    simp only [checkRateLimit, h]
    rw [if_neg (Nat.not_lt.mpr hle), if_neg (Nat.not_le.mpr hcnt)]
  · exact (rateCalls_closed ip RATE_LIMIT_MAX_ENDPOINT_CREATES now 10 (by omega) (by decide)).2
  · rw [(rateCalls_closed ip RATE_LIMIT_MAX_ENDPOINT_CREATES now 10 (by omega) (by decide)).1]
    have hlk : lookupLimiter [(ip, RateRecord.mk 10 (now + RATE_LIMIT_WINDOW_MS))] ip
        = some (RateRecord.mk 10 (now + RATE_LIMIT_WINDOW_MS)) := by
      simp [lookupLimiter]
    simp only [checkRateLimit, hlk]
    rw [if_neg (show ¬ ((RateRecord.mk 10 (now + RATE_LIMIT_WINDOW_MS)).resetTime < now)
          by show ¬ (now + RATE_LIMIT_WINDOW_MS < now); omega)]
    rw [if_pos (show RATE_LIMIT_MAX_ENDPOINT_CREATES
          ≤ (RateRecord.mk 10 (now + RATE_LIMIT_WINDOW_MS)).count
          from (by decide : RATE_LIMIT_MAX_ENDPOINT_CREATES ≤ 10))]
  · intro now2 h2
    rw [(rateCalls_closed ip RATE_LIMIT_MAX_ENDPOINT_CREATES now 10 (by omega) (by decide)).1]
    have hlk : lookupLimiter [(ip, RateRecord.mk 10 (now + RATE_LIMIT_WINDOW_MS))] ip
        = some (RateRecord.mk 10 (now + RATE_LIMIT_WINDOW_MS)) := by
      simp [lookupLimiter]
    simp only [checkRateLimit, hlk]
    rw [if_pos (show (RateRecord.mk 10 (now + RATE_LIMIT_WINDOW_MS)).resetTime < now2 from h2)]

/-- Witness for C7: the fixed-window behavior at concrete keys, counters
and instants. -/
theorem c7_fixed_window_witness :
    checkRateLimit [] "1.2.3.4" 10 1000
      = (setLimiter [] "1.2.3.4" (RateRecord.mk 1 (1000 + RATE_LIMIT_WINDOW_MS)),
          RateCheck.mk true ((10 : Int) - 1) RATE_LIMIT_WINDOW_MS)
    ∧ checkRateLimit [("1.2.3.4", RateRecord.mk 10 61000)] "1.2.3.4" 10 1500
      = ([("1.2.3.4", RateRecord.mk 10 61000)], RateCheck.mk false 0 (61000 - 1500))
    ∧ checkRateLimit [("1.2.3.4", RateRecord.mk 3 61000)] "1.2.3.4" 10 1500
      = (setLimiter [("1.2.3.4", RateRecord.mk 3 61000)] "1.2.3.4" (RateRecord.mk 4 61000),
          RateCheck.mk true ((10 : Int) - 4) (61000 - 1500))
    ∧ checkRateLimit [("1.2.3.4", RateRecord.mk 10 61000)] "1.2.3.4" 10 62000
      = (setLimiter [("1.2.3.4", RateRecord.mk 10 61000)] "1.2.3.4"
            (RateRecord.mk 1 (62000 + RATE_LIMIT_WINDOW_MS)),
          RateCheck.mk true ((10 : Int) - 1) RATE_LIMIT_WINDOW_MS)
    ∧ (rateCalls [] "1.2.3.4" RATE_LIMIT_MAX_ENDPOINT_CREATES 1000 10).2
        = List.replicate 10 true
    ∧ (checkRateLimit (rateCalls [] "1.2.3.4" RATE_LIMIT_MAX_ENDPOINT_CREATES 1000 10).1
          "1.2.3.4" RATE_LIMIT_MAX_ENDPOINT_CREATES 1000).2.allowed = false
    ∧ (checkRateLimit (rateCalls [] "1.2.3.4" RATE_LIMIT_MAX_ENDPOINT_CREATES 1000 10).1
          "1.2.3.4" RATE_LIMIT_MAX_ENDPOINT_CREATES 61001).2.allowed = true :=
  ⟨(c7_fixed_window [] "1.2.3.4" 10 1000).1 (by decide),
   (c7_fixed_window [("1.2.3.4", RateRecord.mk 10 61000)] "1.2.3.4" 10 1500).2.2.1
     (RateRecord.mk 10 61000) (by decide) (by decide) (by decide),
   (c7_fixed_window [("1.2.3.4", RateRecord.mk 3 61000)] "1.2.3.4" 10 1500).2.2.2.1
     (RateRecord.mk 3 61000) (by decide) (by decide) (by decide),
   (c7_fixed_window [("1.2.3.4", RateRecord.mk 10 61000)] "1.2.3.4" 10 62000).2.1
     (RateRecord.mk 10 61000) (by decide) (by decide),
   (c7_fixed_window [] "1.2.3.4" 10 1000).2.2.2.2.1,
   (c7_fixed_window [] "1.2.3.4" 10 1000).2.2.2.2.2.1,
   (c7_fixed_window [] "1.2.3.4" 10 1000).2.2.2.2.2.2 61001 (by decide)⟩



set_option maxRecDepth 8192 in
/-- C2 (code bug): the capture pipeline's HTTP response never consults the
request body.  Capturing the Azure Event Grid subscription-validation
payload (the repository's own test input, server.test.ts:455-460) returns
the plain "Captured" acknowledgment — there is no JSON object echoing the
validation code, contradicting the spec's handshake hook and the test
suite's expectation of `validationResponse`.  The request itself is still
captured and stored like any other (its body is the full payload text). -/
theorem c2_handshake_not_implemented :
    (handleWebhookCapture (dbInit "0123456789abcdef0123456789abcdef" 0)
        "0123456789abcdef0123456789abcdef" "9.9.9.9" eventGridRequest 0).2.2
      = CaptureResponse.plainCaptured
    ∧ (handleWebhookCapture (dbInit "0123456789abcdef0123456789abcdef" 0)
        "0123456789abcdef0123456789abcdef" "9.9.9.9" eventGridRequest 0).2.1.body
      = some (strBytes eventGridBody)
    ∧ (∀ (db : DB) (eid ip : String) (req1 req2 : IncomingRequest) (now : Nat),
        req1.headers = req2.headers → req1.method = req2.method →
        req1.pathWithQuery = req2.pathWithQuery →
        (handleWebhookCapture db eid ip req1 now).2.2
          = (handleWebhookCapture db eid ip req2 now).2.2) := by
  refine ⟨by decide, by decide, ?_⟩
  intro db eid ip req1 req2 now hh hm hp
  simp only [handleWebhookCapture]
  rw [hh, hm, hp]

/-- C1: a successful endpoint delete removes every request row of that
endpoint (the schema's ON DELETE CASCADE), and a subsequent metadata read
for the same id is a 404 not-found. -/
theorem c1_delete_endpoint_cascades (db : DB) (id : String) (qk hk : Option String)
    (hok : (deleteEndpointRoute db id qk hk).2 = ApiResult.ok true) :
    (∀ r ∈ (deleteEndpointRoute db id qk hk).1.requests, r.endpoint_id ≠ id)
    ∧ getEndpointMetadataRoute (deleteEndpointRoute db id qk hk).1 id qk hk
        = ApiResult.notFound := by
  have hres : deleteEndpointRoute db id qk hk = (deleteEndpointCascade db id, ApiResult.ok true)
      ∧ isValidEndpointId id = true := by
    rw [deleteEndpointRoute] at hok ⊢
    by_cases hv : (!isValidEndpointId id) = true
    · rw [if_pos hv] at hok
      simp at hok
    · have hvalid : isValidEndpointId id = true := by
        simpa using hv
      rw [if_neg hv] at hok ⊢
      cases hg : getEndpoint db id with
      | none =>
        rw [hg] at hok
        simp at hok
      | some e =>
        simp only [hg] at hok ⊢
        by_cases hgate : (isEndpointProtected e && !accessGatePasses e qk hk) = true
        · rw [if_pos hgate] at hok
          simp at hok
        · rw [if_neg hgate] at hok ⊢
          rw [getEndpoint_id_eq hg]
          exact ⟨rfl, hvalid⟩
  rcases hres with ⟨hres, hvalid⟩
  rw [hres]
  constructor
  · intro r hr
    rcases List.mem_filter.mp hr with ⟨_, hcond⟩
    simpa using hcond
  · rw [getEndpointMetadataRoute, if_neg (by simp [hvalid])]
    rw [getEndpoint_deleteEndpointCascade]

/-- Witness for C1: deleting a concrete unprotected endpoint holding one
stored request. -/
theorem c1_delete_endpoint_cascades_witness :
    (deleteEndpointRoute
        (DB.mk [epRow "aaaaaaaaaaaaaaaaaaaaaaaaaaaaaaaa" 0]
          [RequestRecord.mk 1 "aaaaaaaaaaaaaaaaaaaaaaaaaaaaaaaa" "POST" [] none false [] 0 "/p" none]
          2)
        "aaaaaaaaaaaaaaaaaaaaaaaaaaaaaaaa" none none).2 = ApiResult.ok true
    ∧ getEndpointMetadataRoute
        (deleteEndpointRoute
          (DB.mk [epRow "aaaaaaaaaaaaaaaaaaaaaaaaaaaaaaaa" 0]
            [RequestRecord.mk 1 "aaaaaaaaaaaaaaaaaaaaaaaaaaaaaaaa" "POST" [] none false [] 0 "/p" none]
            2)
          "aaaaaaaaaaaaaaaaaaaaaaaaaaaaaaaa" none none).1
        "aaaaaaaaaaaaaaaaaaaaaaaaaaaaaaaa" none none = ApiResult.notFound :=
  ⟨by decide,
   (c1_delete_endpoint_cascades
      (DB.mk [epRow "aaaaaaaaaaaaaaaaaaaaaaaaaaaaaaaa" 0]
        [RequestRecord.mk 1 "aaaaaaaaaaaaaaaaaaaaaaaaaaaaaaaa" "POST" [] none false [] 0 "/p" none]
        2)
      "aaaaaaaaaaaaaaaaaaaaaaaaaaaaaaaa" none none (by decide)).2⟩



/-- C5: at most 100 request rows ever exist for the endpoint of the
retention scenario: after N captures against a fresh endpoint exactly
`min N 100` rows remain, with the consecutive ids ending at the newest
insertion; for N > 100 that is exactly 100 rows, the 100 most recent by
insertion order (ids N-99 .. N), the oldest rows having been pruned. -/
theorem c5_retention_cap (eid ip : String) (req : IncomingRequest) (now : Nat) (N : Nat) :
    requestIdsFor (captureIter (dbInit eid now) eid ip req now N) eid
      = List.range' (1 + N - min N 100) (min N 100)
    ∧ (requestIdsFor (captureIter (dbInit eid now) eid ip req now N) eid).length = min N 100
    ∧ (100 < N →
      requestIdsFor (captureIter (dbInit eid now) eid ip req now N) eid
        = List.range' (N - 99) 100
      ∧ (requestIdsFor (captureIter (dbInit eid now) eid ip req now N) eid).length = 100) := by
  have hc := captureIter_closed eid ip req now N
  have hids : requestIdsFor (captureIter (dbInit eid now) eid ip req now N) eid
      = List.range' (1 + N - min N 100) (min N 100) := by
    rw [hc]
    exact requestIdsFor_map_capturedRow _ _ _ _ _ _ _
  refine ⟨hids, by rw [hids]; simp, ?_⟩
  intro hN
  constructor
  · rw [hids, show 1 + N - min N 100 = N - 99 from by omega,
      show min N 100 = 100 from by omega]
  · rw [hids]
    simp
    omega

/-- Witness for C5: 101 captures leave exactly the 100 rows with ids
2..101. -/
theorem c5_retention_cap_witness :
    100 < 101
    ∧ requestIdsFor
        (captureIter (dbInit "aaaaaaaaaaaaaaaaaaaaaaaaaaaaaaaa" 0)
          "aaaaaaaaaaaaaaaaaaaaaaaaaaaaaaaa" "9.9.9.9"
          (IncomingRequest.mk "GET" [] [] "/x" []) 0 101)
        "aaaaaaaaaaaaaaaaaaaaaaaaaaaaaaaa"
      = List.range' (101 - 99) 100
    ∧ (requestIdsFor
        (captureIter (dbInit "aaaaaaaaaaaaaaaaaaaaaaaaaaaaaaaa" 0)
          "aaaaaaaaaaaaaaaaaaaaaaaaaaaaaaaa" "9.9.9.9"
          (IncomingRequest.mk "GET" [] [] "/x" []) 0 101)
        "aaaaaaaaaaaaaaaaaaaaaaaaaaaaaaaa").length = 100 :=
  ⟨by decide,
   ((c5_retention_cap "aaaaaaaaaaaaaaaaaaaaaaaaaaaaaaaa" "9.9.9.9"
      (IncomingRequest.mk "GET" [] [] "/x" []) 0 101).2.2 (by decide)).1,
   ((c5_retention_cap "aaaaaaaaaaaaaaaaaaaaaaaaaaaaaaaa" "9.9.9.9"
      (IncomingRequest.mk "GET" [] [] "/x" []) 0 101).2.2 (by decide)).2⟩

theorem ensureEndpoint_id (db : DB) (id : String) (now : Nat) :
    (ensureEndpoint db id now).2.id = id := by
  cases h : getEndpoint db id with
  | some e => rw [ensureEndpoint_found now h]; exact getEndpoint_id_eq h
  | none => simp only [ensureEndpoint, h]; rfl

theorem getEndpoint_handleWebhookCapture (db : DB) (eid ip : String) (req : IncomingRequest)
    (now : Nat) :
    getEndpoint ((handleWebhookCapture db eid ip req now).1) eid
      = some { (ensureEndpoint db eid now).2 with expires_at := now + EXPIRATION_MS } := by
  show getEndpoint (refreshEndpointExpiration _ (ensureEndpoint db eid now).2.id now) eid = _
  rw [ensureEndpoint_id, getEndpoint_refresh]
  show (getEndpoint (ensureEndpoint db eid now).1 eid).map _ = _
  rw [getEndpoint_ensureEndpoint]
  rfl



/-- C4 counterexample: an inspector access to an existing, unexpired
endpoint leaves its `expiresAt` untouched — it is not set to
`now + 7 days`.  Here the endpoint expires at 100000, the access happens
at now = 1000, and afterwards `expiresAt` is still 100000, not
1000 + EXPIRATION_MS. -/
theorem c4_counterexample :
    (inspectRoute
        (ServerState.mk
          (DB.mk [EndpointRow.mk "aaaaaaaaaaaaaaaaaaaaaaaaaaaaaaaa" 0 100000 none] [] 1)
          0 [] [])
        "aaaaaaaaaaaaaaaaaaaaaaaaaaaaaaaa" 1000).2 = InspectResult.page
    ∧ getEndpoint
        (inspectRoute
          (ServerState.mk
            (DB.mk [EndpointRow.mk "aaaaaaaaaaaaaaaaaaaaaaaaaaaaaaaa" 0 100000 none] [] 1)
            0 [] [])
          "aaaaaaaaaaaaaaaaaaaaaaaaaaaaaaaa" 1000).1.db
        "aaaaaaaaaaaaaaaaaaaaaaaaaaaaaaaa"
      = some (EndpointRow.mk "aaaaaaaaaaaaaaaaaaaaaaaaaaaaaaaa" 0 100000 none)
    ∧ (100000 : Nat) ≠ 1000 + EXPIRATION_MS :=
  ⟨by decide, by decide, by decide⟩

/-- C4 (amended): the inspector route only ensures the endpoint exists —
for an endpoint that still exists after the throttled sweep, inspector
access leaves the database (in particular `expiresAt`) unchanged; when
the id is absent it creates a fresh row with `expiresAt = now + 7 days`.
`refreshExpiration` (`expiresAt = now + 7 days`) is invoked on every
successful capture. -/
theorem c4_inspector_no_refresh :
    (∀ (st : ServerState) (id : String) (now : Nat) (e : EndpointRow),
      isValidEndpointId id = true →
      getEndpoint (cleanupExpired st.db st.lastCleanup now).1 id = some e →
      (inspectRoute st id now).1.db = (cleanupExpired st.db st.lastCleanup now).1
      ∧ getEndpoint ((inspectRoute st id now).1.db) id = some e)
    ∧ (∀ (st : ServerState) (id : String) (now : Nat),
      isValidEndpointId id = true →
      getEndpoint (cleanupExpired st.db st.lastCleanup now).1 id = none →
      getEndpoint ((inspectRoute st id now).1.db) id = some (epRow id now))
    ∧ (∀ (db : DB) (eid ip : String) (req : IncomingRequest) (now : Nat),
      ∃ r, getEndpoint ((handleWebhookCapture db eid ip req now).1) eid = some r
        ∧ r.expires_at = now + EXPIRATION_MS) := by
  refine ⟨?_, ?_, ?_⟩
  · intro st id now e hv hf
    rw [inspectRoute, if_neg (by simp [hv])]
    dsimp only
    rw [ensureEndpoint_found now hf]
    exact ⟨rfl, hf⟩
  · intro st id now hv hn
    rw [inspectRoute, if_neg (by simp [hv])]
    dsimp only
    have := getEndpoint_create_self (cleanupExpired st.db st.lastCleanup now).1 id false "" now hn
    simp only [ensureEndpoint, hn]
    exact this
  · intro db eid ip req now
    exact ⟨{ (ensureEndpoint db eid now).2 with expires_at := now + EXPIRATION_MS },
      getEndpoint_handleWebhookCapture db eid ip req now, rfl⟩

/-- Witness for C4 (amended) at a concrete state: inspector access leaves
an existing endpoint's expiration at 100000; a capture at time 7 sets the
endpoint's expiration to 7 + EXPIRATION_MS. -/
theorem c4_inspector_no_refresh_witness :
    isValidEndpointId "aaaaaaaaaaaaaaaaaaaaaaaaaaaaaaaa" = true
    ∧ (inspectRoute
        (ServerState.mk
          (DB.mk [EndpointRow.mk "aaaaaaaaaaaaaaaaaaaaaaaaaaaaaaaa" 0 100000 none] [] 1)
          0 [] [])
        "aaaaaaaaaaaaaaaaaaaaaaaaaaaaaaaa" 1000).1.db
      = (cleanupExpired
          (DB.mk [EndpointRow.mk "aaaaaaaaaaaaaaaaaaaaaaaaaaaaaaaa" 0 100000 none] [] 1)
          0 1000).1
    ∧ (∃ r, getEndpoint
        ((handleWebhookCapture
          (DB.mk [EndpointRow.mk "aaaaaaaaaaaaaaaaaaaaaaaaaaaaaaaa" 0 100000 none] [] 1)
          "aaaaaaaaaaaaaaaaaaaaaaaaaaaaaaaa" "9.9.9.9"
          (IncomingRequest.mk "GET" [] [] "/x" []) 7).1)
        "aaaaaaaaaaaaaaaaaaaaaaaaaaaaaaaa" = some r
        ∧ r.expires_at = 7 + EXPIRATION_MS) :=
  ⟨by decide,
   ((c4_inspector_no_refresh.1
      (ServerState.mk
        (DB.mk [EndpointRow.mk "aaaaaaaaaaaaaaaaaaaaaaaaaaaaaaaa" 0 100000 none] [] 1)
        0 [] [])
      "aaaaaaaaaaaaaaaaaaaaaaaaaaaaaaaa" 1000
      (EndpointRow.mk "aaaaaaaaaaaaaaaaaaaaaaaaaaaaaaaa" 0 100000 none)
      (by decide) (by decide))).1,
   c4_inspector_no_refresh.2.2
     (DB.mk [EndpointRow.mk "aaaaaaaaaaaaaaaaaaaaaaaaaaaaaaaa" 0 100000 none] [] 1)
     "aaaaaaaaaaaaaaaaaaaaaaaaaaaaaaaa" "9.9.9.9"
     (IncomingRequest.mk "GET" [] [] "/x" []) 7⟩



/-- C3 counterexample: when the expired endpoint has not yet been swept
(the lazy cleanup is throttled: only 1 second has passed since the last
sweep), the next capture against its id does NOT create a brand-new
unprotected endpoint — it reuses the old protected row: the resulting
endpoint still carries the access-secret hash `some "h"` and the old
`createdAt = 0`, not a fresh one. -/
theorem c3_counterexample :
    (captureRoute
        (ServerState.mk
          (DB.mk [EndpointRow.mk "aaaaaaaaaaaaaaaaaaaaaaaaaaaaaaaa" 0 100 (some "h")] [] 1)
          49000 [] [])
        "aaaaaaaaaaaaaaaaaaaaaaaaaaaaaaaa" "9.9.9.9"
        (IncomingRequest.mk "GET" [] [] "/x" []) 50000).2
      = CaptureRouteResult.captured CaptureResponse.plainCaptured
    ∧ getEndpoint
        (captureRoute
          (ServerState.mk
            (DB.mk [EndpointRow.mk "aaaaaaaaaaaaaaaaaaaaaaaaaaaaaaaa" 0 100 (some "h")] [] 1)
            49000 [] [])
          "aaaaaaaaaaaaaaaaaaaaaaaaaaaaaaaa" "9.9.9.9"
          (IncomingRequest.mk "GET" [] [] "/x" []) 50000).1.db
        "aaaaaaaaaaaaaaaaaaaaaaaaaaaaaaaa"
      = some (EndpointRow.mk "aaaaaaaaaaaaaaaaaaaaaaaaaaaaaaaa" 0 (50000 + EXPIRATION_MS)
          (some "h"))
    ∧ (some "h" : Option String) ≠ none
    ∧ (0 : Nat) ≠ 50000 :=
  ⟨by decide, by decide, by decide, by decide⟩

theorem getEndpoint_cleanup_run (db : DB) (id : String) (now : Nat)
    (h : ∀ e ∈ db.endpoints, e.id = id → e.expires_at ≤ now) :
    getEndpoint (DB.mk (db.endpoints.filter (fun e => !(decide (e.expires_at ≤ now))))
        (db.requests.filter (fun r =>
          !(db.endpoints.any (fun e => e.id == r.endpoint_id && decide (e.expires_at ≤ now)))))
        db.nextRequestId) id = none := by
  apply List.find?_eq_none.mpr
  intro e he
  rcases List.mem_filter.mp he with ⟨hmem, hcond⟩
  intro hbeq
  have hid : e.id = id := by simpa [beq_iff_eq] using hbeq
  have := h e hmem hid
  simp [this] at hcond

/-- C3 (amended): after an endpoint's `expiresAt` has passed and the lazy
sweep actually runs during the next capture (at least 60 s since the last
cleanup, so the throttle does not skip it), capturing against the same id
creates a brand-new unprotected endpoint: no access-secret hash and a
fresh `createdAt = now` (rather than failing or reusing the old protected
row).  If the sweep is throttled the old row is reused instead (see the
counterexample). -/
theorem c3_auto_recreation_after_sweep (st : ServerState) (id ip : String)
    (req : IncomingRequest) (now : Nat)
    (h1 : isValidEndpointId id = true)
    (h2 : ∀ e ∈ st.db.endpoints, e.id = id → e.expires_at ≤ now)
    (h3 : 60000 ≤ now - st.lastCleanup)
    (h4 : (checkRateLimit st.requestLimiter ip RATE_LIMIT_MAX_REQUESTS now).2.allowed = true) :
    getEndpoint ((captureRoute st id ip req now).1.db) id = some (epRow id now)
    ∧ (captureRoute st id ip req now).2
      = CaptureRouteResult.captured
          (captureResponseFor req.headers req.method id req.pathWithQuery) := by
  have hclean : cleanupExpired st.db st.lastCleanup now
      = (DB.mk (st.db.endpoints.filter (fun e => !(decide (e.expires_at ≤ now))))
          (st.db.requests.filter (fun r =>
            !(st.db.endpoints.any (fun e => e.id == r.endpoint_id && decide (e.expires_at ≤ now)))))
          st.db.nextRequestId, now) := by
    rw [cleanupExpired, if_neg (by omega)]
  have hnone : getEndpoint (cleanupExpired st.db st.lastCleanup now).1 id = none := by
    rw [hclean]
    exact getEndpoint_cleanup_run st.db id now h2
  rw [captureRoute, if_neg (by simp [h1])]
  dsimp only
  rw [if_neg (by simp [h4])]
  constructor
  · rw [getEndpoint_handleWebhookCapture]
    simp only [ensureEndpoint, hnone]
    rfl
  · dsimp only
    congr 1
    show captureResponseFor req.headers req.method
        (ensureEndpoint (cleanupExpired st.db st.lastCleanup now).1 id now).2.id
        req.pathWithQuery = _
    rw [ensureEndpoint_id]

/-- Witness for C3 (amended): a concrete expired protected endpoint, with
the sweep due, is recreated fresh and unprotected by the next capture. -/
theorem c3_auto_recreation_after_sweep_witness :
    isValidEndpointId "aaaaaaaaaaaaaaaaaaaaaaaaaaaaaaaa" = true
    ∧ getEndpoint
        ((captureRoute
          (ServerState.mk
            (DB.mk [EndpointRow.mk "aaaaaaaaaaaaaaaaaaaaaaaaaaaaaaaa" 0 100 (some "h")] [] 1)
            0 [] [])
          "aaaaaaaaaaaaaaaaaaaaaaaaaaaaaaaa" "9.9.9.9"
          (IncomingRequest.mk "GET" [] [] "/x" []) 70000).1.db)
        "aaaaaaaaaaaaaaaaaaaaaaaaaaaaaaaa"
      = some (epRow "aaaaaaaaaaaaaaaaaaaaaaaaaaaaaaaa" 70000) :=
  ⟨by decide,
   (c3_auto_recreation_after_sweep
      (ServerState.mk
        (DB.mk [EndpointRow.mk "aaaaaaaaaaaaaaaaaaaaaaaaaaaaaaaa" 0 100 (some "h")] [] 1)
        0 [] [])
      "aaaaaaaaaaaaaaaaaaaaaaaaaaaaaaaa" "9.9.9.9"
      (IncomingRequest.mk "GET" [] [] "/x" []) 70000
      (by decide) (by decide) (by decide) (by decide)).1⟩



theorem gate_fails {e : EndpointRow} {hsh : String} {qk hk : Option String}
    (hhash : e.password_hash = some hsh)
    (hbad : (qk <|> hk) = none ∨ ∃ k, (qk <|> hk) = some k ∧ verifyAccessKey k hsh = false) :
    (isEndpointProtected e && !accessGatePasses e qk hk) = true := by
  have hgate : accessGatePasses e qk hk = false := by
    rcases hbad with hnone | ⟨k, hkey, hv⟩
    · simp [accessGatePasses, hhash, hnone]
    · simp [accessGatePasses, hhash, hkey, hv]
  simp [isEndpointProtected, hhash, hgate]

theorem prune_keeps_new_row (db3 : DB) (eid : String) (row : RequestRecord)
    (hmem : row ∈ db3.requests) (heid : row.endpoint_id = eid)
    (hmax : ∀ r ∈ db3.requests, (r.endpoint_id == eid) = true → r.id ≤ row.id) :
    row ∈ (pruneOldRequests db3 eid).requests := by
  apply List.mem_filter.mpr
  refine ⟨hmem, ?_⟩
  have hmem_ids : row.id ∈ requestIdsFor db3 eid :=
    List.mem_map_of_mem _ (List.mem_filter.mpr ⟨hmem, by simp [heid]⟩)
  have hmax2 : ∀ y ∈ requestIdsFor db3 eid, y ≤ row.id := by
    intro y hy
    rcases List.mem_map.mp hy with ⟨r1, hr1, hid1⟩
    rcases List.mem_filter.mp hr1 with ⟨hm1, hp1⟩
    rw [← hid1]
    exact hmax r1 hm1 hp1
  rcases sortDesc_eq_cons_of_max hmem_ids hmax2 with ⟨t, ht⟩
  have htop : row.id ∈ topRequestIds db3 eid := by
    rw [topRequestIds, ht, show MAX_REQUESTS_PER_ENDPOINT = 99 + 1 from rfl,
      List.take_succ_cons]
    exact List.mem_cons_self _ _
  rw [heid, contains_true_of_mem htop]
  simp

/-- C8: capture is never gated — a protected endpoint still records every
inbound request, producing the ordinary capture response; the protection
check is public (it takes no secret, never returns unauthorized, and
reports the protection flag of any existing endpoint); and every gated
read or destructive route answers a missing or wrong secret with the
unauthorized-with-protected-flag outcome, which is distinct from the
not-found outcome reserved for unknown endpoints. -/
theorem c8_access_control :
    (∀ (db : DB) (eid ip : String) (req : IncomingRequest) (now : Nat) (e : EndpointRow),
      getEndpoint db eid = some e → isEndpointProtected e = true →
      (∀ r ∈ db.requests, r.id < db.nextRequestId) →
      (handleWebhookCapture db eid ip req now).2.1
          ∈ (handleWebhookCapture db eid ip req now).1.requests
      ∧ (handleWebhookCapture db eid ip req now).2.1.endpoint_id = eid
      ∧ (handleWebhookCapture db eid ip req now).2.2
          = captureResponseFor req.headers req.method eid req.pathWithQuery)
    ∧ (∀ (db : DB) (id : String),
      checkProtectedRoute db id ≠ ApiResult.unauthorizedProtected)
    ∧ (∀ (db : DB) (id : String) (e : EndpointRow),
      isValidEndpointId id = true → getEndpoint db id = some e →
      checkProtectedRoute db id = ApiResult.ok (isEndpointProtected e))
    ∧ (∀ (db : DB) (id : String) (e : EndpointRow) (hsh : String) (qk hk : Option String),
      isValidEndpointId id = true → getEndpoint db id = some e →
      e.password_hash = some hsh →
      ((qk <|> hk) = none ∨ ∃ k, (qk <|> hk) = some k ∧ verifyAccessKey k hsh = false) →
      getEndpointMetadataRoute db id qk hk = ApiResult.unauthorizedProtected
      ∧ deleteEndpointRoute db id qk hk = (db, ApiResult.unauthorizedProtected)
      ∧ clearRequestsRoute db id qk hk = (db, ApiResult.unauthorizedProtected))
    ∧ (∀ (db : DB) (id : String) (qk hk : Option String),
      isValidEndpointId id = true → getEndpoint db id = none →
      getEndpointMetadataRoute db id qk hk = ApiResult.notFound)
    ∧ (ApiResult.notFound ≠ (ApiResult.unauthorizedProtected : ApiResult MetadataPayload)) := by
  refine ⟨?_, ?_, ?_, ?_, ?_, by simp⟩
  · intro db eid ip req now e hg hp hb
    rw [handleWebhookCapture_found db e eid ip req now hg]
    refine ⟨?_, getEndpoint_id_eq hg, by rw [getEndpoint_id_eq hg]⟩
    apply prune_keeps_new_row
    · show _ ∈ db.requests ++ [_]
      exact List.mem_append_right _ (List.mem_singleton_self _)
    · rfl
    · intro r1 h1 hp1
      rcases List.mem_append.mp h1 with hold | hnew
      · exact Nat.le_of_lt (hb r1 hold)
      · rw [List.mem_singleton.mp hnew]
  · intro db id h
    rw [checkProtectedRoute] at h
    by_cases hv : (!isValidEndpointId id) = true
    · rw [if_pos hv] at h
      simp at h
    · rw [if_neg hv] at h
      cases hg : getEndpoint db id with
      | none =>
        simp only [hg] at h
        exact ApiResult.noConfusion h
      | some e =>
        simp only [hg] at h
        exact ApiResult.noConfusion h
  · intro db id e hv hg
    rw [checkProtectedRoute, if_neg (by simp [hv])]
    simp only [hg]
  · intro db id e hsh qk hk hv hg hhash hbad
    have hfail := gate_fails hhash hbad
    refine ⟨?_, ?_, ?_⟩
    · rw [getEndpointMetadataRoute, if_neg (by simp [hv])]
      simp only [hg]
      rw [if_pos hfail]
    · rw [deleteEndpointRoute, if_neg (by simp [hv])]
      simp only [hg]
      rw [if_pos hfail]
    · rw [clearRequestsRoute, if_neg (by simp [hv])]
      simp only [hg]
      rw [if_pos hfail]
  · intro db id qk hk hv hn
    rw [getEndpointMetadataRoute, if_neg (by simp [hv])]
    simp only [hn]



/-- Witness for C8 at a concrete protected endpoint (hash of key "k1"):
capture without any key still stores the request; the protection check
answers without a key; metadata read without a key and delete with a
wrong key are unauthorized; an unknown id is not-found, a distinct
outcome. -/
theorem c8_access_control_witness :
    ((handleWebhookCapture
        (DB.mk [EndpointRow.mk "aaaaaaaaaaaaaaaaaaaaaaaaaaaaaaaa" 0 999999
          (some (hashAccessKey "k1"))] [] 1)
        "aaaaaaaaaaaaaaaaaaaaaaaaaaaaaaaa" "9.9.9.9"
        (IncomingRequest.mk "GET" [] [] "/x" []) 7).2.1
      ∈ (handleWebhookCapture
        (DB.mk [EndpointRow.mk "aaaaaaaaaaaaaaaaaaaaaaaaaaaaaaaa" 0 999999
          (some (hashAccessKey "k1"))] [] 1)
        "aaaaaaaaaaaaaaaaaaaaaaaaaaaaaaaa" "9.9.9.9"
        (IncomingRequest.mk "GET" [] [] "/x" []) 7).1.requests)
    ∧ checkProtectedRoute
        (DB.mk [EndpointRow.mk "aaaaaaaaaaaaaaaaaaaaaaaaaaaaaaaa" 0 999999
          (some (hashAccessKey "k1"))] [] 1)
        "aaaaaaaaaaaaaaaaaaaaaaaaaaaaaaaa" = ApiResult.ok true
    ∧ getEndpointMetadataRoute
        (DB.mk [EndpointRow.mk "aaaaaaaaaaaaaaaaaaaaaaaaaaaaaaaa" 0 999999
          (some (hashAccessKey "k1"))] [] 1)
        "aaaaaaaaaaaaaaaaaaaaaaaaaaaaaaaa" none none = ApiResult.unauthorizedProtected
    ∧ deleteEndpointRoute
        (DB.mk [EndpointRow.mk "aaaaaaaaaaaaaaaaaaaaaaaaaaaaaaaa" 0 999999
          (some (hashAccessKey "k1"))] [] 1)
        "aaaaaaaaaaaaaaaaaaaaaaaaaaaaaaaa" (some "wrong") none
      = (DB.mk [EndpointRow.mk "aaaaaaaaaaaaaaaaaaaaaaaaaaaaaaaa" 0 999999
          (some (hashAccessKey "k1"))] [] 1, ApiResult.unauthorizedProtected)
    ∧ getEndpointMetadataRoute DB.empty "aaaaaaaaaaaaaaaaaaaaaaaaaaaaaaaa" none none
      = ApiResult.notFound :=
  ⟨(c8_access_control.1
      (DB.mk [EndpointRow.mk "aaaaaaaaaaaaaaaaaaaaaaaaaaaaaaaa" 0 999999
        (some (hashAccessKey "k1"))] [] 1)
      "aaaaaaaaaaaaaaaaaaaaaaaaaaaaaaaa" "9.9.9.9"
      (IncomingRequest.mk "GET" [] [] "/x" []) 7
      (EndpointRow.mk "aaaaaaaaaaaaaaaaaaaaaaaaaaaaaaaa" 0 999999 (some (hashAccessKey "k1")))
      (by decide) (by decide) (by decide)).1,
   c8_access_control.2.2.1
     (DB.mk [EndpointRow.mk "aaaaaaaaaaaaaaaaaaaaaaaaaaaaaaaa" 0 999999
       (some (hashAccessKey "k1"))] [] 1)
     "aaaaaaaaaaaaaaaaaaaaaaaaaaaaaaaa"
     (EndpointRow.mk "aaaaaaaaaaaaaaaaaaaaaaaaaaaaaaaa" 0 999999 (some (hashAccessKey "k1")))
     (by decide) (by decide),
   (c8_access_control.2.2.2.1
     (DB.mk [EndpointRow.mk "aaaaaaaaaaaaaaaaaaaaaaaaaaaaaaaa" 0 999999
       (some (hashAccessKey "k1"))] [] 1)
     "aaaaaaaaaaaaaaaaaaaaaaaaaaaaaaaa"
     (EndpointRow.mk "aaaaaaaaaaaaaaaaaaaaaaaaaaaaaaaa" 0 999999 (some (hashAccessKey "k1")))
     (hashAccessKey "k1") none none
     (by decide) (by decide) (by decide) (Or.inl rfl)).1,
   (c8_access_control.2.2.2.1
     (DB.mk [EndpointRow.mk "aaaaaaaaaaaaaaaaaaaaaaaaaaaaaaaa" 0 999999
       (some (hashAccessKey "k1"))] [] 1)
     "aaaaaaaaaaaaaaaaaaaaaaaaaaaaaaaa"
     (EndpointRow.mk "aaaaaaaaaaaaaaaaaaaaaaaaaaaaaaaa" 0 999999 (some (hashAccessKey "k1")))
     (hashAccessKey "k1") (some "wrong") none
     (by decide) (by decide) (by decide)
     (Or.inr ⟨"wrong", rfl, by decide⟩)).2.1,
   c8_access_control.2.2.2.2.1 DB.empty "aaaaaaaaaaaaaaaaaaaaaaaaaaaaaaaa" none none
     (by decide) rfl⟩

end WebhookSpy
